import Mathlib

/-!
Verification development for the sasuke authentication backend.

Shallow embedding of the core subsystems: the generic document model, the
MongoDB and PostgreSQL database clients (field/column whitelist
sanitization, query construction, not-found and uniqueness handling), the
two user-repository adapters, the user service (login decisions), the HTTP
login error path, and the JWT issue/verify protocol.

Go conventions mapped to Lean:
* `map[string]interface{}` documents become association lists
  `List (String × String)`; values are opaque and modelled as strings.
* Go errors are modelled by `GoErr`: either a `pq.Error` carrying a
  PostgreSQL error code, or a plain message error (`fmt.Errorf` wrapping is
  string concatenation, which loses the `pq.Error` type exactly as a Go
  type assertion on a wrapped error would).
* Mutation of caller-supplied maps (Go maps are reference types) is made
  explicit: each PostgreSQL operation returns the post-call state of the
  caller's filter/update map alongside its result.
* External collaborators (the PostgreSQL engine with the unique index
  created by `ensureSchemaSQL`, the mongo driver with the unique index
  created by `EnsureIndices`, bcrypt, ECDSA) are modelled abstractly but
  faithfully to their documented behaviour: inserts violating the unique
  username index fail with the backend-specific duplicate error, the mongo
  driver rejects a nil document, bcrypt comparison succeeds exactly on the
  hash of the same plaintext, and an ECDSA signature verifies exactly
  under the public half of the signing key.
-/

namespace Sasuke

/-- A Go `map[string]interface{}` document: an association list from field
names to (opaque, string-modelled) values. -/
abbrev Doc := List (String × String)

/-- Character membership test mirroring Go `strings.ContainsAny`. -/
def containsAnyChars (s : String) (chars : String) : Bool :=
  s.toList.any (fun c => chars.toList.contains c)

/-- Look up the value stored under key `k`, mirroring Go map indexing. -/
def lookupKey (d : Doc) (k : String) : Option String :=
  (d.find? (fun kv => kv.1 == k)).map (fun kv => kv.2)

/-- Whether the document has an entry for key `k`. -/
def hasKey (d : Doc) (k : String) : Bool :=
  d.any (fun kv => kv.1 == k)

/-- Mirror of Go `strings.Join(parts, sep)`. -/
def joinSep (sep : String) : List String → String
  | [] => ""
  | [x] => x
  | x :: xs => x ++ sep ++ joinSep sep xs

/-- Whether `pat` is an initial segment of `s` (character lists). -/
def startsWithChars : List Char → List Char → Bool
  | [], _ => true
  | _ :: _, [] => false
  | a :: as, b :: bs => a == b && startsWithChars as bs

/-- Whether `pat` occurs as a contiguous run inside `s` (character lists). -/
def hasSubstringChars (pat : List Char) : List Char → Bool
  | [] => startsWithChars pat []
  | c :: rest => startsWithChars pat (c :: rest) || hasSubstringChars pat rest

/-- Mirror of Go `strings.Contains(s, pat)`. -/
def strContains (s pat : String) : Bool :=
  hasSubstringChars pat.toList s.toList

/-- The persisted credential record (`models.User` / the decoded row or
BSON document): opaque string ID, username, and the stored one-way hash of
the password. -/
structure User where
  id : String
  username : String
  password : String
deriving DecidableEq, Repr

/-- Column (or BSON field) access on a stored record, used to evaluate a
sanitized filter against a row/document of the users table/collection. -/
def userColumnValue (u : User) : String → Option String
  | "id" => some u.id
  | "username" => some u.username
  | "password" => some u.password
  | _ => none

/-- A row/document matches a filter when every filter entry equals the
corresponding column of the record. -/
def matchesFilter (u : User) (f : Doc) : Bool :=
  f.all (fun kv => userColumnValue u kv.1 == some kv.2)

/-- A value handed across the `interfaces.Document` boundary
(`interface{}` in Go): a plain `map[string]interface\x7b\x7d`, a `bson.M`
map (an alias of `primitive.M`, a defined type whose dynamic type is NOT
identical to `map[string]interface\x7b\x7d`, so a Go type assertion to the
plain map type fails on it even though the contents are the same shape), a
Go struct (as the mongo repository's `AddUser` passes), or nil. -/
inductive GoDocument where
  | map (d : Doc)
  | bsonM (d : Doc)
  | structUser (id username password : String)
  | nil
deriving DecidableEq, Repr

/-- Go errors: a `pq.Error` with its five-character SQLSTATE code, or a
plain message error (`errors.New` / `fmt.Errorf`). -/
inductive GoErr where
  | pq (code : String) (msg : String)
  | str (msg : String)
deriving DecidableEq, Repr

/-- The string `Error()` returns for either kind of Go error. -/
def GoErr.message : GoErr → String
  | .pq _ msg => msg
  | .str msg => msg

/-- The table/collection name the repositories operate on
(`constants.UsersCollection`); its value is pinned by `ensureSchemaSQL`,
which creates the table `users` when executed for this name. -/
def UsersCollection : String := "users"

/-! ## MongoDB client (`pkg/databases/mongo/client.go`) -/

/-- The mongo reserved identity key (`IDFIELD` in the mongo client). -/
def MongoIdField : String := "_id"

/-- `mongo.ErrNoDocuments.Error()` from the mongo driver. -/
def ErrNoDocuments : String := "mongo: no documents in result"

/-- `mongo.ErrNilDocument.Error()` from the mongo driver. -/
def ErrNilDocument : String := "document is nil"

/-- The configuration-derived state of `MongoDBClient`: whitelists of
valid collection names and valid field names. -/
structure MongoDBClient where
  validCollections : List String
  validFields : List String
deriving DecidableEq, Repr

/-- Mirror of `MongoDBClient.sanitizeDocument`: nil documents and values
whose dynamic type is not exactly `map[string]interface\x7b\x7d` yield a
nil result (`none`) — that includes `bson.M` values, whose defined type
`primitive.M` fails the type assertion despite the code comment claiming
otherwise; for a plain map, a fresh copy is built keeping only entries
whose key is not the reserved `_id` field, is in the field whitelist, and
contains neither `$` nor `.`. -/
def MongoDBClient.sanitizeDocument (m : MongoDBClient) (document : GoDocument) :
    Option Doc :=
  match document with
  | .nil => none
  | .structUser _ _ _ => none
  | .bsonM _ => none
  | .map docMap =>
      some (docMap.filter (fun kv =>
        kv.1 != MongoIdField
          && (m.validFields.contains kv.1 && !containsAnyChars kv.1 "$.")))

/-- Rendering of a document by Go `fmt`'s `%v` verb (used inside the mongo
client's error messages). -/
def fmtDoc (d : Doc) : String :=
  "map[" ++ joinSep " " (d.map (fun kv => kv.1 ++ ":" ++ kv.2)) ++ "]"

/-- Rendering of an `interfaces.Document` value by `%v` (a `bson.M`
prints like any map). -/
def fmtGoDocument : GoDocument → String
  | .map d => fmtDoc d
  | .bsonM d => fmtDoc d
  | .structUser i u p => "\x7b" ++ i ++ " " ++ u ++ " " ++ p ++ "\x7d"
  | .nil => "<nil>"

/-- Mirror of `MongoDBClient.InsertOne`. The collection state and the
driver-generated ObjectID are explicit parameters; the driver and server
(external) are modelled per the unique username index that `EnsureIndices`
creates: a nil document is rejected with `ErrNilDocument`, and a duplicate
username fails with an E11000 duplicate key error. On success the new
document's ObjectID is returned along with the new collection state. -/
def MongoDBClient.InsertOne (m : MongoDBClient) (coll : List User)
    (collectionName : String) (document : GoDocument) (newObjectID : String) :
    Except GoErr (List User × String) :=
  if !m.validCollections.contains collectionName then
    .error (.str ("MongoDBClient: Invalid collection name: " ++ collectionName))
  else if collectionName == "" then
    .error (.str "MongoDBClient: Collection name cannot be empty")
  else
    match m.sanitizeDocument document with
    | none =>
        .error (.str ("MongoDBClient: Failed to insert one into "
          ++ collectionName ++ ": " ++ ErrNilDocument))
    | some d =>
        let newUser : User :=
          { id := newObjectID
            username := (lookupKey d "username").getD ""
            password := (lookupKey d "password").getD "" }
        if coll.any (fun r => r.username == newUser.username) then
          .error (.str ("MongoDBClient: Failed to insert one into "
            ++ collectionName
            ++ ": write exception: write errors: [E11000 duplicate key error"
            ++ " collection: users index: username_1]"))
        else
          .ok (coll ++ [newUser], newObjectID)

/-- Mirror of `MongoDBClient.FindOne`: rejects unknown collection names,
sanitizes the filter, queries the driver (modelled as first match in the
collection), and maps the driver's no-documents result to a fresh error
message that embeds the original filter. On success the found document is
decoded into the caller's destination (returned here as the value). -/
def MongoDBClient.FindOne (m : MongoDBClient) (coll : List User)
    (collectionName : String) (filter : GoDocument) : Except GoErr User :=
  if !m.validCollections.contains collectionName then
    .error (.str ("MongoDBClient: Invalid collection name: " ++ collectionName))
  else if collectionName == "" then
    .error (.str "MongoDBClient: Collection name cannot be empty")
  else
    match m.sanitizeDocument filter with
    | none =>
        .error (.str ("MongoDBClient: Failed to find one in " ++ collectionName
          ++ " with filter: " ++ fmtGoDocument filter ++ ": " ++ ErrNilDocument))
    | some sf =>
        match coll.find? (fun r => matchesFilter r sf) with
        | some r => .ok r
        | none =>
            .error (.str ("MongoDBClient: No document found in " ++ collectionName
              ++ " with filter: " ++ fmtGoDocument filter))

/-! ## PostgreSQL client (`pkg/databases/postgres/client.go`) -/

/-- The PostgreSQL reserved identity key (`IDFIELD` in the postgres
client). -/
def PgIdField : String := "id"

/-- The SQLSTATE code for a unique constraint violation, checked by the
postgres repository adapter. -/
def UniqueErrorCode : String := "23505"

/-- The characters the postgres sanitizer rejects inside keys
(`strings.ContainsAny(key, "();--")`). -/
def pgReservedChars : String := "();\x2d\x2d"

/-- The configuration-derived state of `PostgresDatabaseClient`:
whitelists of valid column names and valid table names. -/
structure PostgresDatabaseClient where
  validColumns : List String
  validTables : List String
deriving DecidableEq, Repr

/-- Mirror of `PostgresDatabaseClient.sanitizeDocument`: errors on nil and
on non-map documents; otherwise deletes the `id` key from the map, then
deletes every key that contains an SQL-reserved character or is not in the
column whitelist. In Go this mutates the caller's map in place and returns
the same map; the returned list is therefore also the post-call state of
the caller's map. -/
def PostgresDatabaseClient.sanitizeDocument (p : PostgresDatabaseClient)
    (document : GoDocument) : Except String Doc :=
  match document with
  | .nil => .error "PostgreSQL SanitizeDocument: Document is nil"
  | .structUser _ _ _ =>
      .error "PostgreSQL SanitizeDocument expects document to be map[string]interface\x7b\x7d"
  | .bsonM _ =>
      .error "PostgreSQL SanitizeDocument expects document to be map[string]interface\x7b\x7d"
  | .map docMap =>
      .ok ((docMap.filter (fun kv => kv.1 != PgIdField)).filter (fun kv =>
        !(containsAnyChars kv.1 pgReservedChars || !p.validColumns.contains kv.1)))

/-- The sanitized map a postgres operation works with for a map-valued
document (the non-error branch of `sanitizeDocument`). -/
def pgSanitized (p : PostgresDatabaseClient) (docMap : Doc) : Doc :=
  (docMap.filter (fun kv => kv.1 != PgIdField)).filter (fun kv =>
    !(containsAnyChars kv.1 pgReservedChars || !p.validColumns.contains kv.1))

/-- Mirror of the `docMap["id"] = uuid.New().String()` step of postgres
`InsertOne`: a generated UUID is added under `id` when absent. -/
def pgGenDoc (docMap : Doc) (newUUID : String) : Doc :=
  if hasKey docMap PgIdField then docMap else docMap ++ [(PgIdField, newUUID)]

/-- The column list of the INSERT statement postgres `InsertOne` builds:
the keys of the document (after ID generation), with no sanitization. -/
def pgInsertColumns (docMap : Doc) (newUUID : String) : List String :=
  (pgGenDoc docMap newUUID).map (fun kv => kv.1)

/-- The `$1, $2, ...` placeholder list postgres `InsertOne` builds. -/
def pgPlaceholders (n : Nat) : List String :=
  (List.range n).map (fun i => "$" ++ toString (i + 1))

/-- The SQL text postgres `InsertOne` constructs with `fmt.Sprintf`. -/
def pgInsertQuery (tableName : String) (docMap : Doc) (newUUID : String) : String :=
  "INSERT INTO " ++ tableName ++ " ("
    ++ joinSep ", " (pgInsertColumns docMap newUUID)
    ++ ") VALUES ("
    ++ joinSep ", " (pgPlaceholders (pgGenDoc docMap newUUID).length)
    ++ ") RETURNING id"

/-- The `col = $n` clause list built from a sanitized document starting at
parameter number `n` (used for WHERE and SET clauses). -/
def pgClauses : Doc → Nat → List String
  | [], _ => []
  | kv :: rest, n => (kv.1 ++ " = $" ++ toString n) :: pgClauses rest (n + 1)

/-- The external PostgreSQL engine executing an INSERT on the `users`
table, modelled per `ensureSchemaSQL` (unique username): a duplicate
username fails with a `pq.Error` carrying SQLSTATE 23505; otherwise the
row is stored and the `RETURNING id` value comes back. -/
def pgExecInsertUsers (rows : List User) (docMap : Doc) :
    Except GoErr (List User × String) :=
  let newRow : User :=
    { id := (lookupKey docMap "id").getD ""
      username := (lookupKey docMap "username").getD ""
      password := (lookupKey docMap "password").getD "" }
  if rows.any (fun r => r.username == newRow.username) then
    .error (.pq UniqueErrorCode
      "pq: duplicate key value violates unique constraint users_username_key")
  else
    .ok (rows ++ [newRow], newRow.id)

/-- Mirror of `PostgresDatabaseClient.InsertOne`: requires a map document,
generates an `id` when absent, builds the column and placeholder lists
directly from the document's keys (no table-name check and no whitelist
sanitization here), and executes the insert. The driver's error is
returned unwrapped, so the `pq.Error` type survives to the caller. The
external server is modelled for the one table the schema creates: any
other table name fails with the server's unknown-relation error. -/
def PostgresDatabaseClient.InsertOne (p : PostgresDatabaseClient)
    (rows : List User) (tableName : String) (document : GoDocument)
    (newUUID : String) : Except GoErr (List User × String) :=
  match document with
  | .map docMap =>
      let docMap := pgGenDoc docMap newUUID
      if tableName == UsersCollection then
        pgExecInsertUsers rows docMap
      else
        .error (.str ("pq: relation " ++ tableName ++ " does not exist"))
  | _ =>
      .error (.str "PostgreSQL InsertOne expects document to be map[string]interface\x7b\x7d")

/-- Mirror of `PostgresDatabaseClient.FindOne`. Returns the operation
result, the post-call state of the caller's filter map (Go maps alias, so
after sanitization the caller's map holds exactly the sanitized entries),
and the post-call state of the caller's destination struct. Steps: reject
unknown table names; sanitize the filter in place; reject an empty
sanitized filter; select the first matching row into the destination. When
zero rows match, `sql.ErrNoRows` is swallowed: the code's attempted reset
(`reflect.New(elem.Type()).Elem().Set(elem)`) copies the destination's
current values into a freshly allocated value that is then discarded, so
the destination keeps the values it held before the call and a nil error
is returned. -/
def PostgresDatabaseClient.FindOne (p : PostgresDatabaseClient)
    (rows : List User) (tableName : String) (filter : GoDocument) (dest : User) :
    Except GoErr Unit × GoDocument × User :=
  if !p.validTables.contains tableName then
    (.error (.str ("invalid table name: " ++ tableName)), filter, dest)
  else
    match p.sanitizeDocument filter with
    | .error e =>
        (.error (.str ("PostgreSQL FindOne failed to sanitize filter: " ++ e)),
          filter, dest)
    | .ok sf =>
        if sf.isEmpty then
          (.error (.str "PostgreSQL FindOne requires a non-empty filter"),
            .map sf, dest)
        else
          match rows.find? (fun r => matchesFilter r sf) with
          | some r => (.ok (), .map sf, r)
          | none => (.ok (), .map sf, dest)

/-- The SQL text postgres `FindOne` constructs for a destination of type
`models.User` (columns from reflecting the struct's fields, lowercased). -/
def pgFindOneQuery (p : PostgresDatabaseClient) (tableName : String)
    (filterMap : Doc) : String :=
  "SELECT id, username, password FROM " ++ tableName ++ " WHERE "
    ++ joinSep " AND " (pgClauses (pgSanitized p filterMap) 1) ++ " LIMIT 1"

/-- Mirror of `PostgresDatabaseClient.FindMany` up to query construction
(row decoding is external): returns the built SQL or an error, and the
post-call state of the caller's filter map. An empty sanitized filter is
allowed here (the WHERE clause is simply omitted). -/
def PostgresDatabaseClient.FindMany (p : PostgresDatabaseClient)
    (tableName : String) (filter : GoDocument) : Except GoErr String × GoDocument :=
  if !p.validTables.contains tableName then
    (.error (.str ("invalid table name: " ++ tableName)), filter)
  else
    match p.sanitizeDocument filter with
    | .error e =>
        (.error (.str ("PostgreSQL FindMany failed to sanitize filter: " ++ e)),
          filter)
    | .ok sf =>
        let whereString :=
          if sf.isEmpty then ""
          else " WHERE " ++ joinSep " AND " (pgClauses sf 1)
        (.ok ("SELECT * FROM " ++ tableName ++ whereString), .map sf)

/-- Mirror of `PostgresDatabaseClient.UpdateOne` up to query construction:
sanitizes both the filter and the update in place (both caller maps are
returned post-call), numbers SET parameters before WHERE parameters, and
builds the UPDATE statement. -/
def PostgresDatabaseClient.UpdateOne (p : PostgresDatabaseClient)
    (tableName : String) (filter update : GoDocument) :
    Except GoErr String × GoDocument × GoDocument :=
  if !p.validTables.contains tableName then
    (.error (.str ("invalid table name: " ++ tableName)), filter, update)
  else
    match p.sanitizeDocument filter with
    | .error e =>
        (.error (.str ("PostgreSQL FindMany failed to sanitize filter: " ++ e)),
          filter, update)
    | .ok sf =>
        match p.sanitizeDocument update with
        | .error e =>
            (.error (.str ("PostgreSQL UpdateOne failed to sanitize update: " ++ e)),
              .map sf, update)
        | .ok su =>
            (.ok ("UPDATE " ++ tableName ++ " SET "
                ++ joinSep ", " (pgClauses su 1)
                ++ " WHERE "
                ++ joinSep " AND " (pgClauses sf (su.length + 1))),
              .map sf, .map su)

/-- Mirror of `PostgresDatabaseClient.DeleteOne` up to query construction:
sanitizes the filter in place and builds the DELETE statement. -/
def PostgresDatabaseClient.DeleteOne (p : PostgresDatabaseClient)
    (tableName : String) (filter : GoDocument) : Except GoErr String × GoDocument :=
  if !p.validTables.contains tableName then
    (.error (.str ("invalid table name: " ++ tableName)), filter)
  else
    match p.sanitizeDocument filter with
    | .error e =>
        (.error (.str ("PostgreSQL FindMany failed to sanitize filter: " ++ e)),
          filter)
    | .ok sf =>
        (.ok ("DELETE FROM " ++ tableName ++ " WHERE "
            ++ joinSep " AND " (pgClauses sf 1)), .map sf)

/-- Mirror of `PostgresDatabaseClient.DeleteMany` up to query
construction: sanitizes the filter in place; an empty sanitized filter
omits the WHERE clause. -/
def PostgresDatabaseClient.DeleteMany (p : PostgresDatabaseClient)
    (tableName : String) (filter : GoDocument) : Except GoErr String × GoDocument :=
  if !p.validTables.contains tableName then
    (.error (.str ("invalid table name: " ++ tableName)), filter)
  else
    match p.sanitizeDocument filter with
    | .error e =>
        (.error (.str ("PostgreSQL FindMany failed to sanitize filter: " ++ e)),
          filter)
    | .ok sf =>
        let whereString :=
          if sf.isEmpty then ""
          else " WHERE " ++ joinSep " AND " (pgClauses sf 1)
        (.ok ("DELETE FROM " ++ tableName ++ whereString ++ " RETURNING id"),
          .map sf)

/-! ## Repository adapters (`internal/userrepo/...`) -/

/-- Mirror of `MongoUserRepository.AddUser`
(`internal/userrepo/mongo/userrepo.go`): builds a Go struct value with a
freshly generated ObjectID and the user's fields and hands it to the
client's `InsertOne` as an `interfaces.Document`; maps an error message
containing the Mongo duplicate key marker to the domain already-exists
error, and wraps any other error. Returns the call result together with
the (possibly updated) collection state. -/
def MongoUserRepository.AddUser (m : MongoDBClient) (coll : List User)
    (user : User) (newObjectID : String) : Except String String × List User :=
  let mongoUser : GoDocument := .structUser newObjectID user.username user.password
  match m.InsertOne coll UsersCollection mongoUser newObjectID with
  | .error e =>
      if strContains e.message "E11000 duplicate key error" then
        (.error ("username \x27" ++ user.username ++ "\x27 already exists"), coll)
      else
        (.error ("failed to add user to MongoDB: " ++ e.message), coll)
  | .ok (coll', insertedID) => (.ok insertedID, coll')

/-- The zero `primitive.ObjectID` (`IsZero` compares against it). -/
def zeroObjectID : String := ""

/-- Mirror of `MongoUserRepository.GetUserByUsername`: validates the
username length, queries the client's `FindOne` with a
`bson.M\x7busername: username\x7d` filter (a `bson.M`, so the client's
sanitizer nils it and the driver takes the nil-document error path),
treats an error whose message equals `mongo.ErrNoDocuments.Error()` as
user-not-found, wraps any other error, and treats a decoded zero ObjectID
as not-found. -/
def MongoUserRepository.GetUserByUsername (m : MongoDBClient)
    (coll : List User) (username : String) : Except String (Option User) :=
  if username.length == 0 || username.length > 64 then
    .error "invalid username: must be between 1 and 64 characters"
  else
    match m.FindOne coll UsersCollection (.bsonM [("username", username)]) with
    | .error e =>
        if e.message == ErrNoDocuments then
          .ok none
        else
          .error ("failed to get user by username from MongoDB: " ++ e.message)
    | .ok mongoUser =>
        if mongoUser.id == zeroObjectID then
          .ok none
        else
          .ok (some mongoUser)

/-- Mirror of `PostgresUserRepository.AddUser`
(`internal/userrepo/postgres/userrepo.go`): converts the user record to a
`map[string]interface\x7b\x7d` with username and password keys, calls the
client's `InsertOne`, and translates a `pq.Error` with SQLSTATE 23505 into
the domain already-exists error, wrapping any other error. Returns the
call result together with the (possibly updated) table state. -/
def PostgresUserRepository.AddUser (p : PostgresDatabaseClient)
    (rows : List User) (user : User) (newUUID : String) :
    Except String String × List User :=
  let doc : GoDocument := .map [("username", user.username), ("password", user.password)]
  match p.InsertOne rows UsersCollection doc newUUID with
  | .error e =>
      match e with
      | .pq code _ =>
          if code == UniqueErrorCode then
            (.error ("username \x27" ++ user.username ++ "\x27 already exists"), rows)
          else
            (.error ("failed to add user to PostgreSQL: " ++ e.message), rows)
      | .str msg =>
          (.error ("failed to add user to PostgreSQL: " ++ msg), rows)
  | .ok (rows', insertedID) => (.ok insertedID, rows')

/-- Mirror of `PostgresUserRepository.GetUserByUsername`: declares a
zero-valued `models.User` destination, calls the client's `FindOne` with a
username filter, wraps any error, and interprets an empty ID field in the
destination as user-not-found. -/
def PostgresUserRepository.GetUserByUsername (p : PostgresDatabaseClient)
    (rows : List User) (username : String) : Except String (Option User) :=
  let user : User := { id := "", username := "", password := "" }
  let filter : GoDocument := .map [("username", username)]
  match p.FindOne rows UsersCollection filter user with
  | (.error e, _, _) =>
      .error ("failed to get user by username from PostgreSQL: " ++ e.message)
  | (.ok _, _, u) =>
      if u.id == "" then .ok none else .ok (some u)

/-! ## User service and HTTP login path
(`internal/userservice/userservice.go`, `internal/routes/routes.go`) -/

/-- The external bcrypt hasher, idealized: a salted adaptive hash is
modelled as an injective tagging of the plaintext. -/
def bcryptHash (password : String) : String := "bcrypt$" ++ password

/-- The external `bcrypt.CompareHashAndPassword`, idealized: comparison
succeeds exactly when the stored hash is the hash of the plaintext. -/
def bcryptCompare (hashed password : String) : Bool :=
  hashed == bcryptHash password

/-- Mirror of `UserService.AuthenticateUser`: fetches the stored record
through the repository (abstracted as `repoGet`), returning
`(false, some msg)` for a repository error, for an absent user
(`user not found`), and for a failed bcrypt comparison
(`invalid password`); `(true, none)` on success. The second component is
the Go error (`none` models a nil error). -/
def AuthenticateUser (repoGet : String → Except String (Option User))
    (username password : String) : Bool × Option String :=
  match repoGet username with
  | .error e => (false, some ("error retrieving user: " ++ e))
  | .ok none => (false, some "user not found")
  | .ok (some user) =>
      if bcryptCompare user.password password then (true, none)
      else (false, some "invalid password")

/-- The JSON body `Route.errorResponse` writes: the error's `Error()`
string under `error` plus the handler-supplied message under `message`. -/
def errorResponse (errMsg : String) (message : String) : List (String × String) :=
  [("error", errMsg), ("message", message)]

/-- An HTTP response as the login handler produces it: status code and the
JSON body rendered as key/value pairs. -/
structure HttpResponse where
  status : Nat
  body : List (String × String)
deriving DecidableEq, Repr

/-- Mirror of the authentication core of `Route.Login` (after method,
content-type, decoding and validation checks): on `err != nil` or
`!authenticated` the handler writes status 401 and the `errorResponse`
body built from the error's message and the fixed generic text; on success
it writes status 200 and the success body (the session token travels in a
cookie, not the body). -/
def LoginHandle (repoGet : String → Except String (Option User))
    (username password : String) : HttpResponse :=
  let auth := AuthenticateUser repoGet username password
  if auth.2.isSome || !auth.1 then
    { status := 401
      body := errorResponse (auth.2.getD "") "Invalid username or password" }
  else
    { status := 200, body := [("message", "Login successful")] }

/-! ## Token issuer / verifier (`internal/auth/auth.go`) -/

/-- The fixed issuer claim. -/
def TokenIssuer : String := "github.com/haguru/sasuke.com"

/-- The fixed subject claim. -/
def TokenSubject : String := "AUTHENTICATION"

/-- The fixed token lifetime: 15 minutes, in seconds. -/
def tokenLifetime : Nat := 15 * 60

/-- The claim set `CreateToken` builds (`CustomClaims` embeds the
registered claims); times are seconds since the epoch (`NumericDate`
truncates to seconds by default). -/
structure CustomClaims where
  userID : String
  issuer : String
  subject : String
  audience : List String
  jti : String
  issuedAt : Nat
  notBefore : Nat
  expiresAt : Nat
deriving DecidableEq, Repr

/-- An ECDSA private key, identified by its scalar seed (the curve
arithmetic is external; the key pair relation is what matters here). -/
structure ECDSAPrivateKey where
  seed : Nat
deriving DecidableEq, Repr

/-- An ECDSA public key. -/
structure ECDSAPublicKey where
  seed : Nat
deriving DecidableEq, Repr

/-- The public half of a private key. -/
def publicKeyOf (k : ECDSAPrivateKey) : ECDSAPublicKey := ⟨k.seed⟩

/-- An ECDSA signature over a JWT signing input, idealized as perfectly
binding: it records the signing key and the signed content, and verifies
only under the matching public key on the same content. -/
structure ECDSASignature where
  keySeed : Nat
  alg : String
  payload : CustomClaims
deriving DecidableEq, Repr

/-- Signing with a private key (external `crypto/ecdsa`, idealized). -/
def ecdsaSign (k : ECDSAPrivateKey) (alg : String) (c : CustomClaims) :
    ECDSASignature :=
  ⟨k.seed, alg, c⟩

/-- Signature verification under a public key (external `crypto/ecdsa`,
idealized as sound and complete). -/
def ecdsaVerify (pk : ECDSAPublicKey) (alg : String) (c : CustomClaims)
    (sig : ECDSASignature) : Bool :=
  sig == ⟨pk.seed, alg, c⟩

/-- A signed token: the advertised algorithm from the header, the claims,
and the signature. -/
structure Token where
  alg : String
  claims : CustomClaims
  sig : ECDSASignature
deriving DecidableEq, Repr

/-- Mirror of `auth.CreateToken`: builds the claim set (issuer, subject,
audience, supplied unique token ID, issued-at = now, not-before = now,
expires-at = now + 15 minutes) and signs it with ES256. The three
`time.Now()` calls land within the same second at `NumericDate`
granularity and are modelled by the single `now` parameter; the generated
UUID is the `jti` parameter. -/
def CreateToken (userName : String) (privateKey : ECDSAPrivateKey)
    (now : Nat) (jti : String) : Token :=
  let claims : CustomClaims :=
    { userID := userName
      issuer := TokenIssuer
      subject := TokenSubject
      audience := ["api" ++ TokenIssuer]
      jti := jti
      issuedAt := now
      notBefore := now
      expiresAt := now + tokenLifetime }
  { alg := "ES256", claims := claims, sig := ecdsaSign privateKey "ES256" claims }

/-- Whether an advertised algorithm parses to `*jwt.SigningMethodECDSA`
(the key-function check in `VerifyToken`). -/
def isECDSAAlg (alg : String) : Bool :=
  alg == "ES256" || alg == "ES384" || alg == "ES512"

/-- Mirror of `auth.VerifyToken` over `jwt.ParseWithClaims` semantics:
reject a non-ECDSA advertised algorithm (algorithm-substitution defence),
verify the signature under the supplied public key, then validate the
registered claims against `now` (expiry requires `now < exp`, not-before
requires `nbf ≤ now`, both with zero leeway); return the decoded claims on
success and an error otherwise. -/
def VerifyToken (token : Token) (publicKey : ECDSAPublicKey) (now : Nat) :
    Except String CustomClaims :=
  if !isECDSAAlg token.alg then
    .error ("token parsing error: unexpected signing method: " ++ token.alg)
  else if !ecdsaVerify publicKey token.alg token.claims token.sig then
    .error "token parsing error: token signature is invalid: crypto/ecdsa: verification error"
  else if !decide (now < token.claims.expiresAt) then
    .error "token parsing error: token has invalid claims: token is expired"
  else if !decide (token.claims.notBefore ≤ now) then
    .error "token parsing error: token has invalid claims: token is not valid yet"
  else
    .ok token.claims

/-! ## Sample configuration and concrete scenario data -/

/-- A postgres client configured with the production whitelists (the
`users` table and its username/password columns). -/
def samplePgClient : PostgresDatabaseClient :=
  { validColumns := ["username", "password"], validTables := ["users"] }

/-- A mongo client configured with the production whitelists. -/
def sampleMongoClient : MongoDBClient :=
  { validCollections := ["users"], validFields := ["username", "password"] }

/-- The concrete signup record used in the scenario evaluations. -/
def aliceUser : User :=
  { id := "", username := "alice01", password := bcryptHash "Secret123!" }

/-- Alice's stored credential row, as persisted by a successful signup. -/
def aliceRow : User :=
  { id := "id-alice", username := "alice01", password := bcryptHash "Secret123!" }

/-- A stored table/collection holding exactly alice's credential record. -/
def aliceDb : List User := [aliceRow]

/-- A zero-valued `models.User`, as Go's `var user models.User` yields. -/
def zeroUser : User := { id := "", username := "", password := "" }

/-- A filter mixing a whitelisted key with a non-whitelisted one. -/
def dirtyFilter : Doc := [("username", "alice01"), ("bogus", "x")]

/-- A filter for an absent user, with a non-whitelisted extra key. -/
def bobFilter : Doc := [("username", "bob"), ("bogus", "x")]

/-- A filter every key of which fails the mongo whitelist check. -/
def droppedFilter : Doc := [("$where", "1")]

/-- An update document mixing a whitelisted key with the reserved id key. -/
def dirtyUpdate : Doc := [("password", "p2"), ("id", "evil")]

/-- The repository lookup the login scenario runs against: the postgres
adapter over the sample client and alice's stored record. -/
def sampleRepoGet (username : String) : Except String (Option User) :=
  PostgresUserRepository.GetUserByUsername samplePgClient aliceDb username

/-! ## Helper lemmas -/

/-- A two-stage filter is unchanged by filtering again with either of its
two predicates. -/
theorem filter_pair_absorb {α : Type} (a b : α → Bool) (l : List α) :
    (((l.filter a).filter b).filter a).filter b = (l.filter a).filter b := by
  have h1 : ((l.filter a).filter b).filter a = (l.filter a).filter b := by
    apply List.filter_eq_self.mpr
    intro x hx
    exact List.of_mem_filter (List.mem_of_mem_filter hx)
  rw [h1]
  apply List.filter_eq_self.mpr
  intro x hx
  exact List.of_mem_filter hx

/-- The postgres sanitizer is idempotent: sanitizing an already sanitized
map drops nothing further. -/
theorem pgSanitized_idem (p : PostgresDatabaseClient) (d : Doc) :
    pgSanitized p (pgSanitized p d) = pgSanitized p d := by
  unfold pgSanitized
  apply filter_pair_absorb

/-- The ok-branch of the postgres sanitizer on a map document is
`pgSanitized`. -/
theorem pg_sanitizeDocument_map (p : PostgresDatabaseClient) (d : Doc) :
    p.sanitizeDocument (.map d) = .ok (pgSanitized p d) := rfl

/-! ## Claim theorems -/

/-- C1: a second `AddUser` with an already-taken username fails with the
domain already-exists error. The Postgres adapter behaves as claimed: the
first `AddUser` succeeds and the duplicate one returns an empty ID with
the already-exists error. The Mongo adapter cannot: its `AddUser` hands a
Go struct to a client whose `sanitizeDocument` only accepts
`map[string]interface\x7b\x7d`, so the driver receives a nil document and
even the first `AddUser` on an empty store fails with a nil-document
error, making the claimed duplicate path unreachable. -/
theorem addUser_duplicate_eval :
    (PostgresUserRepository.AddUser samplePgClient [] aliceUser "uuid-1").1
      = .ok "uuid-1"
    ∧ (PostgresUserRepository.AddUser samplePgClient
        (PostgresUserRepository.AddUser samplePgClient [] aliceUser "uuid-1").2
        aliceUser "uuid-2").1
      = .error "username \x27alice01\x27 already exists"
    ∧ (MongoUserRepository.AddUser sampleMongoClient [] aliceUser "oid-1").1
      = .error "failed to add user to MongoDB: MongoDBClient: Failed to insert one into users: document is nil" :=
  ⟨rfl, rfl, rfl⟩

/-- C2: `GetUserByUsername` on an absent username. The Postgres adapter
returns the claimed absent-record result with no error. The Mongo adapter
does not: its `bson.M` filter fails the client sanitizer's
`map[string]interface\x7b\x7d` type assertion (the dynamic type is the
defined type `primitive.M`), so the sanitizer nils the filter, the driver
rejects the nil document, and the client returns a nil-document error
whose message cannot equal `ErrNoDocuments`; the repository therefore
wraps it and the absence surfaces as a non-nil error, contradicting the
repository's own not-found handling comments. -/
theorem getUserByUsername_absent_eval :
    PostgresUserRepository.GetUserByUsername samplePgClient [] "alice01"
      = .ok none
    ∧ MongoUserRepository.GetUserByUsername sampleMongoClient [] "alice01"
      = .error "failed to get user by username from MongoDB: MongoDBClient: Failed to find one in users with filter: map[username:alice01]: document is nil" :=
  ⟨rfl, rfl⟩

/-- C6: sanitized-document characterization for both backends. A key
outside the field/column whitelist, a key containing the backend's
reserved query-operator/SQL characters, and the reserved identity key are
all omitted; every whitelisted plain key is kept with its value. -/
theorem sanitizeDocument_characterization (m : MongoDBClient)
    (p : PostgresDatabaseClient) (d : Doc) (k v : String) :
    ((k, v) ∈ (m.sanitizeDocument (.map d)).getD []
      ↔ (k, v) ∈ d ∧ k ≠ MongoIdField ∧ m.validFields.contains k = true
          ∧ containsAnyChars k "$." = false)
    ∧ ((k, v) ∈ (p.sanitizeDocument (.map d)).toOption.getD []
      ↔ (k, v) ∈ d ∧ k ≠ PgIdField ∧ p.validColumns.contains k = true
          ∧ containsAnyChars k pgReservedChars = false) := by
  constructor
  · simp [MongoDBClient.sanitizeDocument, List.mem_filter, Bool.and_eq_true,
      bne_iff_ne, Bool.not_eq_true', and_assoc]
  · simp [PostgresDatabaseClient.sanitizeDocument, Except.toOption,
      List.mem_filter, Bool.and_eq_true, bne_iff_ne, Bool.not_eq_true',
      Bool.or_eq_false_iff, Bool.not_eq_false', and_assoc]
    tauto

/-- C5 counterexample: postgres `InsertOne` performs no whitelist
sanitization. A document key that is outside the configured column
whitelist and contains SQL-reserved characters appears verbatim in the
column list and in the constructed INSERT statement. -/
theorem insertOne_unsanitized_counterexample :
    "evil); drop table users;\x2d\x2d"
      ∈ pgInsertColumns [("evil); drop table users;\x2d\x2d", "x")] "uuid-1"
    ∧ samplePgClient.validColumns.contains "evil); drop table users;\x2d\x2d" = false
    ∧ containsAnyChars "evil); drop table users;\x2d\x2d" pgReservedChars = true
    ∧ strContains
        (pgInsertQuery "users" [("evil); drop table users;\x2d\x2d", "x")] "uuid-1")
        "drop table" = true := by
  refine ⟨by decide, rfl, rfl, rfl⟩

/-- C5 amended: the whitelist guarantee holds for the WHERE/SET column
lists (every key surviving sanitization is whitelisted and free of
SQL-reserved characters, and is never the reserved `id` key), but the
INSERT column list is built from the raw document's keys: every key of the
supplied document appears as a column of the INSERT statement, sanitized
or not. -/
theorem pg_columns_whitelist_amended (p : PostgresDatabaseClient)
    (d e : Doc) (uuid k j : String)
    (hk : k ∈ (pgSanitized p d).map Prod.fst)
    (hj : j ∈ e.map Prod.fst) :
    (p.validColumns.contains k = true
      ∧ containsAnyChars k pgReservedChars = false
      ∧ k ≠ PgIdField)
    ∧ j ∈ pgInsertColumns e uuid := by
  constructor
  · simp only [pgSanitized, List.map_map, List.mem_map, List.mem_filter] at hk
    obtain ⟨kv, ⟨⟨-, hid⟩, hok⟩, hkeq⟩ := hk
    subst hkeq
    simp only [Bool.not_eq_true', Bool.or_eq_false_iff, Bool.not_eq_false'] at hok
    simp only [bne_iff_ne, ne_eq] at hid
    exact ⟨hok.2, hok.1, hid⟩
  · unfold pgInsertColumns pgGenDoc
    by_cases h : hasKey e PgIdField = true
    · simpa [h] using hj
    · simp only [h]
      simp only [Bool.false_eq_true, if_false, List.map_append, List.mem_append]
      exact Or.inl hj

/-- C5 amended witness at a concrete client, filter and document. -/
theorem pg_columns_whitelist_amended_witness :
    (samplePgClient.validColumns.contains "username" = true
      ∧ containsAnyChars "username" pgReservedChars = false
      ∧ "username" ≠ PgIdField)
    ∧ "evil" ∈ pgInsertColumns [("evil", "x")] "uuid-1" :=
  pg_columns_whitelist_amended samplePgClient
    [("username", "u"), ("bogus", "b")] [("evil", "x")] "uuid-1" "username" "evil"
    (by decide) (by decide)

/-- C8 counterexample: for the Postgres backend, dropping every key of the
filter IS fatal for `FindOne`: with a whitelist-failing single key the
sanitized filter is empty and the operation returns the non-empty-filter
error rather than proceeding. -/
theorem findOne_all_dropped_fatal_counterexample :
    (samplePgClient.FindOne aliceDb "users" (.map [("bogus", "x")])
        { id := "", username := "", password := "" }).1
      = .error (.str "PostgreSQL FindOne requires a non-empty filter") := rfl

/-- C8 amended: dropping whitelist-failing keys is not by itself fatal:
a postgres `FindOne` given a dirty filter behaves exactly as if it had
been given the already-sanitized filter (same result, same destination),
and a mongo `FindOne` whose filter keys are all dropped proceeds with the
empty filter and returns the first stored document — except that postgres
`FindOne` rejects a filter whose sanitized form is empty. -/
theorem findOne_drop_not_fatal_amended (p : PostgresDatabaseClient)
    (m : MongoDBClient) (rows : List User) (t cn : String) (f g : Doc)
    (dest u : User) (rest : List User)
    (hcn : m.validCollections.contains cn = true)
    (hne : (cn == "") = false)
    (hg : ∀ kv ∈ g, kv.1 = MongoIdField ∨ m.validFields.contains kv.1 = false
        ∨ containsAnyChars kv.1 "$." = true) :
    ((p.FindOne rows t (.map f) dest).1
        = (p.FindOne rows t (.map (pgSanitized p f)) dest).1
      ∧ (p.FindOne rows t (.map f) dest).2.2
        = (p.FindOne rows t (.map (pgSanitized p f)) dest).2.2)
    ∧ m.FindOne (u :: rest) cn (.map g) = .ok u := by
  refine ⟨?_, ?_⟩
  · have hs : p.sanitizeDocument (.map (pgSanitized p f))
        = .ok (pgSanitized p f) := by
      rw [pg_sanitizeDocument_map, pgSanitized_idem]
    unfold PostgresDatabaseClient.FindOne
    rw [pg_sanitizeDocument_map, hs]
    by_cases htv : p.validTables.contains t = true
    · rw [htv]
      exact ⟨rfl, rfl⟩
    · have htv' : p.validTables.contains t = false := by
        simpa using htv
      rw [htv']
      exact ⟨rfl, rfl⟩
  · have hgnil : g.filter (fun kv =>
        kv.1 != MongoIdField
          && (m.validFields.contains kv.1 && !containsAnyChars kv.1 "$.")) = [] := by
      rw [List.filter_eq_nil_iff]
      intro kv hkv
      have hfalse : (kv.1 != MongoIdField
          && (m.validFields.contains kv.1 && !containsAnyChars kv.1 "$.")) = false := by
        rcases hg kv hkv with h | h | h
        · simp only [h, bne_self_eq_false, Bool.false_and]
        · simp only [h, Bool.false_and, Bool.and_false]
        · simp only [h, Bool.not_true, Bool.and_false]
      simp only [hfalse]
      exact Bool.false_ne_true
    unfold MongoDBClient.FindOne MongoDBClient.sanitizeDocument
    simp only [hcn, hne, Bool.not_true, hgnil, matchesFilter, List.all_nil,
      List.find?, if_false, Bool.false_eq_true, ite_false]

/-- C8 amended witness: concrete client, one dropped key alongside a kept
one for postgres, and an all-dropped filter for mongo. -/
theorem findOne_drop_not_fatal_amended_witness :
    ((samplePgClient.FindOne aliceDb "users" (.map dirtyFilter) zeroUser).1
        = (samplePgClient.FindOne aliceDb "users"
            (.map (pgSanitized samplePgClient dirtyFilter)) zeroUser).1
      ∧ (samplePgClient.FindOne aliceDb "users" (.map dirtyFilter) zeroUser).2.2
        = (samplePgClient.FindOne aliceDb "users"
            (.map (pgSanitized samplePgClient dirtyFilter)) zeroUser).2.2)
    ∧ sampleMongoClient.FindOne (aliceRow :: []) "users" (.map droppedFilter)
        = .ok aliceRow :=
  findOne_drop_not_fatal_amended samplePgClient sampleMongoClient aliceDb
    "users" "users" dirtyFilter droppedFilter zeroUser aliceRow [] rfl rfl
    (by decide)

/-- C9: the postgres client's `sanitizeDocument` mutates its argument in
place (Go maps alias), so after each of `FindOne`, `FindMany`, `UpdateOne`,
`DeleteOne` and `DeleteMany` on a valid table the caller's filter (and,
for `UpdateOne`, update) map holds exactly the sanitized entries: the `id`
key and every non-whitelisted or reserved-character key have been deleted
from it. -/
theorem pg_ops_mutate_caller_maps (p : PostgresDatabaseClient)
    (rows : List User) (t : String) (f u : Doc) (dest : User)
    (ht : p.validTables.contains t = true) :
    (p.FindOne rows t (.map f) dest).2.1 = .map (pgSanitized p f)
    ∧ (p.FindMany t (.map f)).2 = .map (pgSanitized p f)
    ∧ (p.UpdateOne t (.map f) (.map u)).2.1 = .map (pgSanitized p f)
    ∧ (p.UpdateOne t (.map f) (.map u)).2.2 = .map (pgSanitized p u)
    ∧ (p.DeleteOne t (.map f)).2 = .map (pgSanitized p f)
    ∧ (p.DeleteMany t (.map f)).2 = .map (pgSanitized p f) := by
  constructor
  · simp only [PostgresDatabaseClient.FindOne, pg_sanitizeDocument_map, ht,
      Bool.not_true, Bool.false_eq_true, if_false]
    by_cases hE : (pgSanitized p f).isEmpty = true
    · simp [hE]
    · rw [Bool.not_eq_true] at hE
      simp only [hE, Bool.false_eq_true, if_false]
      cases hF : rows.find? (fun r => matchesFilter r (pgSanitized p f)) <;>
        simp [hF]
  · unfold PostgresDatabaseClient.FindMany PostgresDatabaseClient.UpdateOne
      PostgresDatabaseClient.DeleteOne PostgresDatabaseClient.DeleteMany
    rw [ht]
    exact ⟨rfl, rfl, rfl, rfl, rfl⟩

/-- C9 witness: the caller map states after concrete calls on the sample
client. -/
theorem pg_ops_mutate_caller_maps_witness :
    (samplePgClient.FindOne aliceDb "users" (.map dirtyFilter) zeroUser).2.1
      = .map (pgSanitized samplePgClient dirtyFilter)
    ∧ (samplePgClient.FindMany "users" (.map dirtyFilter)).2
      = .map (pgSanitized samplePgClient dirtyFilter)
    ∧ (samplePgClient.UpdateOne "users" (.map dirtyFilter) (.map dirtyUpdate)).2.1
      = .map (pgSanitized samplePgClient dirtyFilter)
    ∧ (samplePgClient.UpdateOne "users" (.map dirtyFilter) (.map dirtyUpdate)).2.2
      = .map (pgSanitized samplePgClient dirtyUpdate)
    ∧ (samplePgClient.DeleteOne "users" (.map dirtyFilter)).2
      = .map (pgSanitized samplePgClient dirtyFilter)
    ∧ (samplePgClient.DeleteMany "users" (.map dirtyFilter)).2
      = .map (pgSanitized samplePgClient dirtyFilter) :=
  pg_ops_mutate_caller_maps samplePgClient aliceDb "users" dirtyFilter
    dirtyUpdate zeroUser rfl

/-- C10: when postgres `FindOne` matches zero rows it returns a nil error
and the caller's destination struct keeps exactly the field values it held
before the call (the attempted reset writes into a freshly allocated value
that is discarded); consequently the postgres repository's absence
detection works because `GetUserByUsername` passes a zero-valued struct,
whose ID field is still empty after a no-match call. -/
theorem findOne_no_rows_preserves_dest (p : PostgresDatabaseClient)
    (rows : List User) (t : String) (f : Doc) (dest : User) (name : String)
    (ht : p.validTables.contains t = true)
    (hne : (pgSanitized p f).isEmpty = false)
    (hnone : rows.find? (fun r => matchesFilter r (pgSanitized p f)) = none)
    (hu : p.validTables.contains UsersCollection = true)
    (hc : p.validColumns.contains "username" = true)
    (habs : ∀ r ∈ rows, r.username ≠ name) :
    p.FindOne rows t (.map f) dest = (.ok (), .map (pgSanitized p f), dest)
    ∧ PostgresUserRepository.GetUserByUsername p rows name = .ok none := by
  have hc' : "username" ∈ p.validColumns := by
    simpa using hc
  have hsan : ∀ s : String, pgSanitized p [("username", s)] = [("username", s)] := by
    intro s
    have h1 : (("username", s).1 != PgIdField) = true := rfl
    have h2 : containsAnyChars ("username", s).1 pgReservedChars = false := rfl
    simp [pgSanitized, h1, h2, hc']
  constructor
  · simp only [PostgresDatabaseClient.FindOne, pg_sanitizeDocument_map, ht,
      Bool.not_true, Bool.false_eq_true, if_false, hne, hnone]
  · have hfind : rows.find? (fun r => matchesFilter r [("username", name)]) = none := by
      rw [List.find?_eq_none]
      intro r hr
      have : matchesFilter r [("username", name)] = (r.username == name) := by
        simp [matchesFilter, userColumnValue]
      rw [this]
      simp [habs r hr]
    unfold PostgresUserRepository.GetUserByUsername
    simp only [PostgresDatabaseClient.FindOne, pg_sanitizeDocument_map, hu,
      Bool.not_true, Bool.false_eq_true, if_false, hsan, hfind]
    rfl

/-- C10 witness: a non-zero destination survives a no-match `FindOne`
unchanged, and the repository reports absence for an unknown name. -/
theorem findOne_no_rows_preserves_dest_witness :
    samplePgClient.FindOne aliceDb "users" (.map bobFilter) aliceRow
      = (.ok (), .map (pgSanitized samplePgClient bobFilter), aliceRow)
    ∧ PostgresUserRepository.GetUserByUsername samplePgClient aliceDb "bob"
      = .ok none :=
  findOne_no_rows_preserves_dest samplePgClient aliceDb "users" bobFilter
    aliceRow "bob" rfl rfl (by decide) rfl rfl (by decide)

/-- C3: token round trip. Verifying the token `CreateToken` issues for a
username with the public half of the signing key succeeds (at any
verification instant within the validity window) and yields the issued
claims: the user ID is the username, issued-at and not-before equal the
issuance instant (the three clock reads of `CreateToken` land in the same
`NumericDate` second), and expires-at is issued-at plus the fixed
15-minute lifetime. -/
theorem createToken_verifyToken_roundtrip (u jti : String)
    (k : ECDSAPrivateKey) (now vnow : Nat)
    (h1 : now ≤ vnow) (h2 : vnow < now + tokenLifetime) :
    VerifyToken (CreateToken u k now jti) (publicKeyOf k) vnow
      = .ok (CreateToken u k now jti).claims
    ∧ (CreateToken u k now jti).claims.userID = u
    ∧ (CreateToken u k now jti).claims.issuedAt = now
    ∧ (CreateToken u k now jti).claims.notBefore = now
    ∧ (CreateToken u k now jti).claims.expiresAt
      = (CreateToken u k now jti).claims.issuedAt + tokenLifetime := by
  refine ⟨?_, rfl, rfl, rfl, rfl⟩
  simp [VerifyToken, CreateToken, isECDSAAlg, ecdsaVerify, ecdsaSign,
    publicKeyOf, h1, h2, Nat.not_lt.mpr h1]

/-- C3 witness: a concrete round trip verified at the issuance instant. -/
theorem createToken_verifyToken_roundtrip_witness :
    VerifyToken (CreateToken "alice01" ⟨1⟩ 1000 "jti-1") (publicKeyOf ⟨1⟩) 1000
      = .ok (CreateToken "alice01" ⟨1⟩ 1000 "jti-1").claims
    ∧ (CreateToken "alice01" ⟨1⟩ 1000 "jti-1").claims.userID = "alice01"
    ∧ (CreateToken "alice01" ⟨1⟩ 1000 "jti-1").claims.issuedAt = 1000
    ∧ (CreateToken "alice01" ⟨1⟩ 1000 "jti-1").claims.notBefore = 1000
    ∧ (CreateToken "alice01" ⟨1⟩ 1000 "jti-1").claims.expiresAt
      = (CreateToken "alice01" ⟨1⟩ 1000 "jti-1").claims.issuedAt + tokenLifetime :=
  createToken_verifyToken_roundtrip "alice01" "jti-1" ⟨1⟩ 1000 1000
    (by decide) (by decide)

/-- C4: a token issued with one key pair never verifies under a different
pair's public key: for every public key that is not the public half of the
signing key, `VerifyToken` returns no claims and a signature-verification
error. -/
theorem verifyToken_wrong_key (u jti : String) (k : ECDSAPrivateKey)
    (pk : ECDSAPublicKey) (now vnow : Nat) (h : pk ≠ publicKeyOf k) :
    VerifyToken (CreateToken u k now jti) pk vnow
      = .error "token parsing error: token signature is invalid: crypto/ecdsa: verification error" := by
  have hseed : k.seed ≠ pk.seed := by
    intro hc
    apply h
    cases pk
    simp only [publicKeyOf]
    simp_all
  have hv : ecdsaVerify pk "ES256" (CreateToken u k now jti).claims
      (CreateToken u k now jti).sig = false := by
    simp [ecdsaVerify, CreateToken, ecdsaSign, ECDSASignature.mk.injEq, hseed]
  have halg : (CreateToken u k now jti).alg = "ES256" := rfl
  simp only [VerifyToken, halg, hv]
  simp [isECDSAAlg]

/-- C4 witness: a concrete token rejected under a mismatched public key. -/
theorem verifyToken_wrong_key_witness :
    VerifyToken (CreateToken "alice01" ⟨1⟩ 1000 "jti-1") ⟨2⟩ 1000
      = .error "token parsing error: token signature is invalid: crypto/ecdsa: verification error" :=
  verifyToken_wrong_key "alice01" "jti-1" ⟨1⟩ ⟨2⟩ 1000 1000 (by decide)

/-- C7 counterexample: the two login failure modes are distinguishable at
the caller-facing boundary. For an unknown username and for a wrong
password the status code is the same 401, but the JSON bodies differ:
`errorResponse` copies the internal error string into the body's `error`
field, exposing `user not found` versus `invalid password`. -/
theorem login_leaks_cause_counterexample :
    (LoginHandle sampleRepoGet "bob" "Secret123!").status = 401
    ∧ (LoginHandle sampleRepoGet "alice01" "WrongPass").status = 401
    ∧ LoginHandle sampleRepoGet "bob" "Secret123!"
        ≠ LoginHandle sampleRepoGet "alice01" "WrongPass"
    ∧ lookupKey (LoginHandle sampleRepoGet "bob" "Secret123!").body "error"
        = some "user not found"
    ∧ lookupKey (LoginHandle sampleRepoGet "alice01" "WrongPass").body "error"
        = some "invalid password" := by
  refine ⟨rfl, rfl, by decide, rfl, rfl⟩

/-- C7 amended: an unknown username and a wrong password both make
`AuthenticateUser` return false and both produce a 401 response with the
same generic `message` field, but the response body's `error` field
carries the distinct internal cause (`user not found` versus
`invalid password`), so the distinction is not retained only for logging:
it reaches the caller. -/
theorem login_failures_amended (repoGet : String → Except String (Option User))
    (u1 p1 u2 p2 : String) (r : User)
    (h1 : repoGet u1 = .ok none)
    (h2 : repoGet u2 = .ok (some r))
    (hpw : bcryptCompare r.password p2 = false) :
    (AuthenticateUser repoGet u1 p1).1 = false
    ∧ (AuthenticateUser repoGet u2 p2).1 = false
    ∧ (LoginHandle repoGet u1 p1).status = 401
    ∧ (LoginHandle repoGet u2 p2).status = 401
    ∧ lookupKey (LoginHandle repoGet u1 p1).body "message"
      = lookupKey (LoginHandle repoGet u2 p2).body "message"
    ∧ lookupKey (LoginHandle repoGet u1 p1).body "error" = some "user not found"
    ∧ lookupKey (LoginHandle repoGet u2 p2).body "error" = some "invalid password" := by
  simp [AuthenticateUser, LoginHandle, h1, h2, hpw, errorResponse, lookupKey]

/-- C7 amended witness at the concrete login scenario. -/
theorem login_failures_amended_witness :
    (AuthenticateUser sampleRepoGet "bob" "Secret123!").1 = false
    ∧ (AuthenticateUser sampleRepoGet "alice01" "WrongPass").1 = false
    ∧ (LoginHandle sampleRepoGet "bob" "Secret123!").status = 401
    ∧ (LoginHandle sampleRepoGet "alice01" "WrongPass").status = 401
    ∧ lookupKey (LoginHandle sampleRepoGet "bob" "Secret123!").body "message"
      = lookupKey (LoginHandle sampleRepoGet "alice01" "WrongPass").body "message"
    ∧ lookupKey (LoginHandle sampleRepoGet "bob" "Secret123!").body "error"
      = some "user not found"
    ∧ lookupKey (LoginHandle sampleRepoGet "alice01" "WrongPass").body "error"
      = some "invalid password" :=
  login_failures_amended sampleRepoGet "bob" "Secret123!" "alice01" "WrongPass"
    aliceRow rfl rfl (by decide)

end Sasuke
